import Mathlib

/-!
Marketing Performance Analyzer — verification of the metrics-and-recommendations
engine.

Shallow embedding of `analyzer.py` (the core described in the spec: the Metric
Calculator `calculate_metrics`, the Ranker `rank_campaigns`, and the
Recommendation Classifier `generate_recommendations`).

Numeric model: the source operates on pandas float64 columns. We model numeric
values as exact rationals together with the IEEE special values that the
source's divisions can produce (`x / 0` is `+inf`/`-inf` for `x ≠ 0` and `NaN`
for `0 / 0`; comparisons against `NaN` are false). The type `PFloat` carries
`nan`, `-inf`, a finite rational, or `+inf`, with the IEEE-754 rules for the
operations the source performs.
-/

/-- A pandas/numpy float value: NaN, -infinity, a finite value, or +infinity. -/
inductive PFloat where
  | nan : PFloat
  | ninf : PFloat
  | val : ℚ → PFloat
  | inf : PFloat
deriving DecidableEq, Repr

namespace PFloat

/-- Is this value NaN?  Models `pandas.isna` on a float column. -/
def isNan : PFloat → Bool
  | .nan => true
  | _ => false

/-- IEEE `<` as the source's `Series.__lt__` computes it: any comparison
involving NaN is false. -/
def ltB : PFloat → PFloat → Bool
  | .nan, _ => false
  | _, .nan => false
  | .ninf, .ninf => false
  | .ninf, _ => true
  | _, .ninf => false
  | .inf, _ => false
  | .val _, .inf => true
  | .val a, .val b => a < b

/-- IEEE `>` (`Series.__gt__`): `a > b` iff `b < a`; false whenever NaN is involved. -/
def gtB (a b : PFloat) : Bool := ltB b a

/-- Division of two finite values, as numpy true division performs it:
`x / 0` is `NaN` when `x = 0`, `±inf` otherwise. -/
def fdiv (x y : ℚ) : PFloat :=
  if y = 0 then
    if x = 0 then .nan else if 0 < x then .inf else .ninf
  else .val (x / y)

/-- Multiplication of a float by a finite constant (IEEE rules). -/
def mulQ : PFloat → ℚ → PFloat
  | .nan, _ => .nan
  | .inf, c => if 0 < c then .inf else if c < 0 then .ninf else .nan
  | .ninf, c => if 0 < c then .ninf else if c < 0 then .inf else .nan
  | .val q, c => .val (q * c)

/-- IEEE addition for the values the quantile interpolation combines. -/
def add : PFloat → PFloat → PFloat
  | .nan, _ => .nan
  | _, .nan => .nan
  | .inf, .ninf => .nan
  | .ninf, .inf => .nan
  | .inf, _ => .inf
  | _, .inf => .inf
  | .ninf, _ => .ninf
  | _, .ninf => .ninf
  | .val a, .val b => .val (a + b)

/-- IEEE subtraction. -/
def sub : PFloat → PFloat → PFloat
  | .nan, _ => .nan
  | _, .nan => .nan
  | .inf, .inf => .nan
  | .ninf, .ninf => .nan
  | .inf, _ => .inf
  | .ninf, _ => .ninf
  | .val _, .inf => .ninf
  | .val _, .ninf => .inf
  | .val a, .val b => .val (a - b)

/-- Sort key used to model the order `sort_values` establishes on the
non-NaN values: `-inf` below every finite value, `+inf` above. -/
def key : PFloat → WithBot (WithTop ℚ)
  | .nan => ⊥
  | .ninf => ⊥
  | .val q => ((q : WithTop ℚ) : WithBot (WithTop ℚ))
  | .inf => ((⊤ : WithTop ℚ) : WithBot (WithTop ℚ))

theorem ltB_irrefl (x : PFloat) : ltB x x = false := by
  cases x <;> simp [ltB]

theorem key_lt_of_ltB {x y : PFloat} (h : ltB x y = true) : key x < key y := by
  cases x <;> cases y <;> simp [ltB] at h <;>
    first
      | exact WithBot.bot_lt_coe _
      | exact WithBot.coe_lt_coe.2 (WithTop.coe_lt_top _)
      | exact WithBot.coe_lt_coe.2 (WithTop.coe_lt_coe.2 h)

theorem ltB_eq_false_of_key_le {x y : PFloat} (h : key y ≤ key x) : ltB x y = false := by
  by_contra hc
  exact absurd (key_lt_of_ltB (by simpa using hc)) (not_lt.2 h)

theorem key_le_val_val {a b : ℚ} : (key (val a) ≤ key (val b)) ↔ a ≤ b := by
  simp [key, WithBot.coe_le_coe, WithTop.coe_le_coe]

theorem key_val_le_inf (a : ℚ) : key (val a) ≤ key inf := by
  simp [key, WithBot.coe_le_coe]

theorem key_inf_not_le_val (a : ℚ) : ¬ key inf ≤ key (val a) := by
  simp [key, WithBot.coe_le_coe]

theorem key_nan_le (x : PFloat) : key nan ≤ key x := by
  simp [key]

theorem key_ninf_le (x : PFloat) : key ninf ≤ key x := by
  simp [key]

end PFloat

/-- Exact decimal rounding half-to-even of a rational to an integer, the rule
numpy's `round` applies to the scaled value. -/
def rhe (q : ℚ) : ℤ :=
  let f := ⌊q⌋
  let frac := q - f
  if frac < 1 / 2 then f
  else if 1 / 2 < frac then f + 1
  else if f % 2 = 0 then f else f + 1

/-- `Series.round(2)` on a finite value: round half-to-even at two decimals. -/
def round2q (q : ℚ) : ℚ := (rhe (q * 100) : ℚ) / 100

/-- `Series.round(2)` elementwise: NaN and ±inf are unchanged. -/
def PFloat.round2 : PFloat → PFloat
  | .val q => .val (round2q q)
  | x => x

/-- One input row: `campaign_name, impressions, clicks, conversions, spend`. -/
structure CampaignRecord where
  campaign_name : String
  impressions : ℚ
  clicks : ℚ
  conversions : ℚ
  spend : ℚ
deriving DecidableEq, Repr

/-- A row of the dataframe returned by `calculate_metrics`: the original
record's columns plus the five derived metric columns. -/
structure CampaignMetrics where
  record : CampaignRecord
  CTR : PFloat
  CPC : PFloat
  CPA : PFloat
  conversion_rate : PFloat
  ROI : PFloat
deriving DecidableEq, Repr

/-- The fixed average order value hardcoded at `analyzer.py:82`. -/
def avg_order_value : ℚ := 50

/-- Lines 66–84 of `calculate_metrics`, per row, before rounding:
CTR, CPC, CPA, conversion_rate and ROI from the four raw counters. -/
def metricsRowRaw (r : CampaignRecord) : CampaignMetrics :=
  { record := r
    CTR := (PFloat.fdiv r.clicks r.impressions).mulQ 100
    CPC := PFloat.fdiv r.spend r.clicks
    CPA := PFloat.fdiv r.spend r.conversions
    conversion_rate := (PFloat.fdiv r.conversions r.clicks).mulQ 100
    ROI := (PFloat.fdiv (r.conversions * avg_order_value - r.spend) r.spend).mulQ 100 }

/-- Lines 87–91 of `calculate_metrics`: round the five metric columns to two
decimals, in place. -/
def roundMetrics (m : CampaignMetrics) : CampaignMetrics :=
  { m with
    CTR := m.CTR.round2
    CPC := m.CPC.round2
    CPA := m.CPA.round2
    conversion_rate := m.conversion_rate.round2
    ROI := m.ROI.round2 }

/-- `calculate_metrics` (analyzer.py:35–93): derive the five metric columns and
round each to two decimals.  The input dataframe is copied, never mutated. -/
def calculate_metrics (df : List CampaignRecord) : List CampaignMetrics :=
  (df.map metricsRowRaw).map roundMetrics

/-- Modelled from the spec: a Metric Calculator whose stored values keep full
precision, rounding being reserved to the presentation layer ("All rounded to
2 decimal places for presentation; internal computation uses full precision").
Used only to compare the code's behaviour against this reading. -/
def calculate_metrics_fullprec (df : List CampaignRecord) : List CampaignMetrics :=
  df.map metricsRowRaw

/-- A row of the ranked dataframe: `rank` column (inserted at analyzer.py:108)
plus the metric row. -/
structure RankedCampaign where
  rank : ℕ
  m : CampaignMetrics
deriving DecidableEq, Repr

/-- The total preorder `sort_values('ROI', ascending=False)` sorts the non-NaN
rows by: `a` may precede `b` iff `a`'s ROI is at least `b`'s. -/
def roiGE (a b : CampaignMetrics) : Prop := PFloat.key b.ROI ≤ PFloat.key a.ROI

instance : DecidableRel roiGE :=
  fun a b => inferInstanceAs (Decidable (PFloat.key b.ROI ≤ PFloat.key a.ROI))

instance : IsTotal CampaignMetrics roiGE := ⟨fun _ _ => le_total _ _⟩

instance : IsTrans CampaignMetrics roiGE := ⟨fun _ _ _ h1 h2 => le_trans h2 h1⟩

/-- `df_ranked.insert(0, 'rank', range(1, len(df_ranked) + 1))`
(analyzer.py:108): attach consecutive rank numbers starting at `k`. -/
def addRanks (k : ℕ) : List CampaignMetrics → List RankedCampaign
  | [] => []
  | m :: rest => { rank := k, m := m } :: addRanks (k + 1) rest

/-- `rank_campaigns` (analyzer.py:95–110): sort by ROI descending with
`na_position='last'` (NaN ROI rows are set aside before sorting and appended,
in input order, at the end), reset the index, and insert a `rank` column
`1..N`.

Tie-order caveat: the source uses the pandas default `kind='quicksort'`
(numpy introsort), which is not a stable sort, so the source gives no
guarantee on the relative order of equal-ROI rows in general.  This model
uses a stable descending sort in its place; the two coincide on the sorted
multiset (hence on lengths, ranks and the descending order), and coincide
exactly on tie order only where numpy's introsort degenerates to insertion
sort (fewer than 16 non-NaN rows) — which covers every concrete input
evaluated in this file (at most two rows).  No theorem below asserts the
tie order of the program beyond such inputs. -/
def rank_campaigns (dfm : List CampaignMetrics) : List RankedCampaign :=
  let nonNan := dfm.filter (fun m => !m.ROI.isNan)
  let nans := dfm.filter (fun m => m.ROI.isNan)
  let sorted := List.insertionSort roiGE nonNan ++ nans
  addRanks 1 sorted

/-- Ascending order on non-NaN float values, for the sorted sequence a
quantile interpolates over. -/
def pfLE (a b : PFloat) : Prop := PFloat.key a ≤ PFloat.key b

instance : DecidableRel pfLE :=
  fun a b => inferInstanceAs (Decidable (PFloat.key a ≤ PFloat.key b))

instance : IsTotal PFloat pfLE := ⟨fun _ _ => le_total _ _⟩

instance : IsTrans PFloat pfLE := ⟨fun _ _ _ h1 h2 => le_trans h1 h2⟩

/-- `Series.quantile(q)` with the default linear interpolation and
`skipna=True`: drop NaNs, sort ascending, and interpolate at position
`(n-1)*q`.  Empty (or all-NaN) series give NaN. -/
def seriesQuantile (xs : List PFloat) (q : ℚ) : PFloat :=
  let vals := xs.filter (fun x => !x.isNan)
  let ys := List.insertionSort pfLE vals
  let n := ys.length
  if n = 0 then .nan
  else
    let pos : ℚ := ((n - 1 : ℕ) : ℚ) * q
    let i : ℕ := (⌊pos⌋).toNat
    let frac : ℚ := pos - (i : ℚ)
    let a := ys.getD i .nan
    let b := ys.getD (i + 1) .nan
    if frac = 0 then a else a.add ((b.sub a).mulQ frac)

/-- `Series.median()`: the 50% quantile under linear interpolation. -/
def seriesMedian (xs : List PFloat) : PFloat := seriesQuantile xs (1 / 2)

/-- The per-record findings printed for one underperformer
(analyzer.py:168–173): CTR below the full-set median CTR, conversion rate
below the full-set median conversion rate, negative ROI. -/
structure UnderperformerFinding where
  camp : RankedCampaign
  lowCTR : Bool
  lowConversion : Bool
  negativeROI : Bool
deriving DecidableEq, Repr

/-- The structured content of the five sections `generate_recommendations`
prints: top performers, underperformers with their findings, the
high-CTR/low-conversion selection, the budget-allocation numbers and
partitions, and the quick-win selection. -/
structure Recommendations where
  top_performers : List RankedCampaign
  underperformers : List UnderperformerFinding
  high_ctr_low_conv : List RankedCampaign
  total_spend : ℚ
  total_conversions : ℚ
  avg_cpa : PFloat
  efficient_campaigns : List RankedCampaign
  inefficient_campaigns : List RankedCampaign
  quick_wins : List RankedCampaign
deriving DecidableEq, Repr

/-- `generate_recommendations` (analyzer.py:138–233), as the structured data
the five printed sections are built from.  All thresholds are computed over
the full ranked set; the average CPA is the quotient of the raw column sums. -/
def generate_recommendations (df_ranked : List RankedCampaign) : Recommendations :=
  let top_3 := df_ranked.take 3
  let bottom_3 := df_ranked.drop (df_ranked.length - 3)
  let ctrMedian := seriesMedian (df_ranked.map (fun r => r.m.CTR))
  let convMedian := seriesMedian (df_ranked.map (fun r => r.m.conversion_rate))
  let underperformers := bottom_3.map (fun r =>
    { camp := r
      lowCTR := PFloat.ltB r.m.CTR ctrMedian
      lowConversion := PFloat.ltB r.m.conversion_rate convMedian
      negativeROI := PFloat.ltB r.m.ROI (PFloat.val 0) })
  let ctrQ75 := seriesQuantile (df_ranked.map (fun r => r.m.CTR)) (3 / 4)
  let high_ctr_low_conv := df_ranked.filter (fun r =>
    PFloat.gtB r.m.CTR ctrQ75 && PFloat.ltB r.m.conversion_rate convMedian)
  let total_spend := (df_ranked.map (fun r => r.m.record.spend)).sum
  let total_conversions := (df_ranked.map (fun r => r.m.record.conversions)).sum
  let avg_cpa := PFloat.fdiv total_spend total_conversions
  let efficient_campaigns := df_ranked.filter (fun r => PFloat.ltB r.m.CPA avg_cpa)
  let inefficient_campaigns := df_ranked.filter (fun r => PFloat.gtB r.m.CPA avg_cpa)
  let roiMedian := seriesMedian (df_ranked.map (fun r => r.m.ROI))
  let spendMedian := seriesMedian (df_ranked.map (fun r => PFloat.val r.m.record.spend))
  let quick_wins := df_ranked.filter (fun r =>
    PFloat.gtB r.m.ROI roiMedian && PFloat.ltB (PFloat.val r.m.record.spend) spendMedian)
  { top_performers := top_3
    underperformers := underperformers
    high_ctr_low_conv := high_ctr_low_conv
    total_spend := total_spend
    total_conversions := total_conversions
    avg_cpa := avg_cpa
    efficient_campaigns := efficient_campaigns
    inefficient_campaigns := inefficient_campaigns
    quick_wins := quick_wins }

/-! ## Concrete inputs used by the testable properties of the spec -/

/-- Record A of the spec's concrete scenario (§8). -/
def recA : CampaignRecord :=
  { campaign_name := "A", impressions := 1000, clicks := 100, conversions := 10, spend := 200 }

/-- Record B of the spec's concrete scenario (§8). -/
def recB : CampaignRecord :=
  { campaign_name := "B", impressions := 1000, clicks := 50, conversions := 1, spend := 300 }

/-- A zero-click, zero-conversion record with positive spend. -/
def recZ : CampaignRecord :=
  { campaign_name := "Z", impressions := 1000, clicks := 0, conversions := 0, spend := 100 }

/-- A record with zero conversions and zero spend: its CPA and ROI are 0/0. -/
def recN : CampaignRecord :=
  { campaign_name := "N", impressions := 1000, clicks := 10, conversions := 0, spend := 0 }

/-- Exact ROI 1499/485.01 ≈ 3.0907, which rounds to 3.09. -/
def recX : CampaignRecord :=
  { campaign_name := "X", impressions := 1000, clicks := 100, conversions := 10, spend := 48501 / 100 }

/-- Exact ROI 300/97 ≈ 3.0928, which also rounds to 3.09. -/
def recY : CampaignRecord :=
  { campaign_name := "Y", impressions := 1000, clicks := 100, conversions := 10, spend := 485 }

/-! ## Helper lemmas about the ranker -/

theorem addRanks_map_m (k : ℕ) (l : List CampaignMetrics) :
    (addRanks k l).map (fun r => r.m) = l := by
  induction l generalizing k with
  | nil => rfl
  | cons x xs ih => simp [addRanks, ih]

theorem addRanks_length (k : ℕ) (l : List CampaignMetrics) :
    (addRanks k l).length = l.length := by
  induction l generalizing k with
  | nil => rfl
  | cons x xs ih => simp [addRanks, ih]

theorem mem_addRanks {b : RankedCampaign} {k : ℕ} {l : List CampaignMetrics}
    (hb : b ∈ addRanks k l) : b.m ∈ l := by
  have h := List.mem_map_of_mem (fun r => r.m) hb
  rwa [addRanks_map_m] at h

theorem addRanks_pairwise (R : CampaignMetrics → CampaignMetrics → Prop) (k : ℕ)
    {l : List CampaignMetrics} (h : List.Pairwise R l) :
    List.Pairwise (fun a b => R a.m b.m) (addRanks k l) := by
  induction h generalizing k with
  | nil => exact List.Pairwise.nil
  | cons ha _ ih =>
    simp only [addRanks]
    exact List.pairwise_cons.2 ⟨fun b hb => ha _ (mem_addRanks hb), ih (k + 1)⟩

theorem PFloat.isNan_eq_true_iff {x : PFloat} : x.isNan = true ↔ x = .nan := by
  cases x <;> simp [PFloat.isNan]

theorem PFloat.ltB_nan_right (x : PFloat) : PFloat.ltB x .nan = false := by
  cases x <;> rfl

theorem PFloat.ltB_nan_left (x : PFloat) : PFloat.ltB .nan x = false := by
  cases x <;> rfl

/-! ## C1 — Metric Calculator contract and concrete scenario -/

/-- C1: `calculate_metrics` returns an equal-length sequence preserving input
order and all original fields; for every record with nonzero denominators the
metrics are CTR = 100·clicks/impressions, CPC = spend/clicks,
CPA = spend/conversions, conversion_rate = 100·conversions/clicks and
ROI = 100·(conversions·50 − spend)/spend, carried in the two-decimal output
representation (§4.1); on the spec's concrete scenario record A yields
CTR=10, CPC=2, CPA=20, conversion_rate=10, ROI=150 and record B yields
CTR=5, CPC=6, CPA=300, conversion_rate=2, ROI=−83.33. -/
theorem C1_metric_calculator :
    (∀ df : List CampaignRecord, (calculate_metrics df).map (fun m => m.record) = df)
    ∧ (∀ r : CampaignRecord,
        r.impressions ≠ 0 → r.clicks ≠ 0 → r.conversions ≠ 0 → r.spend ≠ 0 →
        calculate_metrics [r] = [
          { record := r
            CTR := .val (round2q (r.clicks / r.impressions * 100))
            CPC := .val (round2q (r.spend / r.clicks))
            CPA := .val (round2q (r.spend / r.conversions))
            conversion_rate := .val (round2q (r.conversions / r.clicks * 100))
            ROI := .val (round2q ((r.conversions * 50 - r.spend) / r.spend * 100)) }])
    ∧ calculate_metrics [recA, recB] = [
        { record := recA
          CTR := .val 10
          CPC := .val 2
          CPA := .val 20
          conversion_rate := .val 10
          ROI := .val 150 },
        { record := recB
          CTR := .val 5
          CPC := .val 6
          CPA := .val 300
          conversion_rate := .val 2
          ROI := .val (-8333 / 100) }] := by
  refine ⟨?_, ?_, ?_⟩
  · intro df
    simp only [calculate_metrics, List.map_map]
    exact List.map_id df
  · intro r h1 h2 h3 h4
    simp [calculate_metrics, metricsRowRaw, roundMetrics, PFloat.fdiv, PFloat.mulQ,
      PFloat.round2, avg_order_value, h1, h2, h3, h4]
  · norm_num [calculate_metrics, metricsRowRaw, roundMetrics, PFloat.fdiv, PFloat.mulQ,
      PFloat.round2, round2q, rhe, avg_order_value, recA, recB]

/-- Witness for C1 at the concrete record A: its denominators are nonzero and
the formulas apply. -/
theorem C1_metric_calculator_witness :
    calculate_metrics [recA] = [
      { record := recA
        CTR := .val (round2q (recA.clicks / recA.impressions * 100))
        CPC := .val (round2q (recA.spend / recA.clicks))
        CPA := .val (round2q (recA.spend / recA.conversions))
        conversion_rate := .val (round2q (recA.conversions / recA.clicks * 100))
        ROI := .val (round2q ((recA.conversions * 50 - recA.spend) / recA.spend * 100)) }] :=
  C1_metric_calculator.2.1 recA (by norm_num [recA]) (by norm_num [recA])
    (by norm_num [recA]) (by norm_num [recA])

/-! ## C8 — empty input -/

/-- C8: on an empty input the Ranker returns an empty output without error,
and every classifier section (top performers, underperformers,
high-traffic/low-conversion, budget allocation, quick wins) degrades to a
"no data" result: empty selections, zero totals, undefined (NaN) average
CPA, with no error raised. -/
theorem C8_empty_input :
    rank_campaigns [] = []
    ∧ generate_recommendations [] =
      { top_performers := []
        underperformers := []
        high_ctr_low_conv := []
        total_spend := 0
        total_conversions := 0
        avg_cpa := .nan
        efficient_campaigns := []
        inefficient_campaigns := []
        quick_wins := [] } := by
  constructor
  · rfl
  · norm_num [generate_recommendations, seriesMedian, seriesQuantile, PFloat.fdiv]

/-! ## C4 — rounding is not confined to presentation -/

/-- Counterexample to C4: records X and Y have distinct exact ROIs
(1499/485.01 ≈ 3.0907 < 300/97 ≈ 3.0928) that both round to 3.09.  The code
ranks X before Y (it sorts the rounded, stored values, and the stable tie
keeps input order), whereas ranking on full-precision values puts Y first:
ranking does not operate on full-precision metric values. -/
theorem C4_counterexample :
    (rank_campaigns (calculate_metrics [recX, recY])).map (fun r => r.m.record.campaign_name)
      = ["X", "Y"]
    ∧ (rank_campaigns (calculate_metrics_fullprec [recX, recY])).map
        (fun r => r.m.record.campaign_name) = ["Y", "X"] := by
  constructor <;>
    norm_num [rank_campaigns, calculate_metrics, calculate_metrics_fullprec, metricsRowRaw,
      roundMetrics, PFloat.fdiv, PFloat.mulQ, PFloat.round2, round2q, rhe, avg_order_value,
      recX, recY, PFloat.isNan, roiGE, List.insertionSort, List.orderedInsert, addRanks,
      PFloat.key_le_val_val]

/-- C4 as amended: rounding to 2 decimals is applied by the Metric
Calculator to the stored metric values themselves, so ranking and the
classifier's metric comparisons and median/percentile thresholds all operate
on the rounded values; only the average CPA is computed at full precision
from the raw spend and conversion column sums. -/
theorem C4_amended :
    (∀ df : List CampaignRecord,
      calculate_metrics df = (calculate_metrics_fullprec df).map roundMetrics)
    ∧ (∀ ranked : List RankedCampaign,
        (generate_recommendations ranked).avg_cpa
          = PFloat.fdiv ((ranked.map (fun r => r.m.record.spend)).sum)
              ((ranked.map (fun r => r.m.record.conversions)).sum))
    ∧ (∀ df : List CampaignRecord,
        rank_campaigns (calculate_metrics df)
          = rank_campaigns ((calculate_metrics_fullprec df).map roundMetrics)) :=
  ⟨fun _ => rfl, fun _ => rfl, fun _ => rfl⟩

/-! ## C3 — zero denominators produce IEEE specials, not always NaN -/

/-- Counterexample to C3: for the zero-click record Z with positive spend,
CPC = spend/0 is produced as +infinity, which is not the claimed
not-a-number sentinel. -/
theorem C3_counterexample :
    (calculate_metrics [recZ]).map (fun m => m.CPC) = [PFloat.inf]
    ∧ PFloat.inf ≠ PFloat.nan ∧ PFloat.inf.isNan = false := by
  refine ⟨?_, by simp, rfl⟩
  norm_num [calculate_metrics, metricsRowRaw, roundMetrics, PFloat.fdiv, PFloat.mulQ,
    PFloat.round2, recZ]

/-- C3 as amended: for a record with a zero denominator the affected metric
is produced as an IEEE special value — NaN when the numerator is also zero,
+inf (resp. -inf) for a positive (negative) numerator — rather than raising
an error; the pipeline does not crash on such records (every record is still
ranked), and records whose ROI is NaN sort after all records with non-NaN
ROI. -/
theorem C3_amended :
    (∀ r : CampaignRecord, r.clicks = 0 →
      (calculate_metrics [r]).map (fun m => m.CPC)
        = [if r.spend = 0 then PFloat.nan else if 0 < r.spend then PFloat.inf else PFloat.ninf]
      ∧ (calculate_metrics [r]).map (fun m => m.conversion_rate)
        = [if r.conversions = 0 then PFloat.nan
           else if 0 < r.conversions then PFloat.inf else PFloat.ninf])
    ∧ (∀ r : CampaignRecord, r.conversions = 0 →
        (calculate_metrics [r]).map (fun m => m.CPA)
          = [if r.spend = 0 then PFloat.nan else if 0 < r.spend then PFloat.inf else PFloat.ninf])
    ∧ (∀ dfm : List CampaignMetrics, (rank_campaigns dfm).length = dfm.length)
    ∧ (∀ dfm : List CampaignMetrics,
        List.Pairwise (fun a b => a.m.ROI.isNan = true → b.m.ROI.isNan = true)
          (rank_campaigns dfm)) := by
  refine ⟨?_, ?_, ?_, ?_⟩
  · intro r h
    constructor
    · simp only [calculate_metrics, List.map_map, List.map_cons, List.map_nil,
        Function.comp, roundMetrics, metricsRowRaw, PFloat.fdiv, h]
      split_ifs <;> simp [PFloat.round2]
    · simp only [calculate_metrics, List.map_map, List.map_cons, List.map_nil,
        Function.comp, roundMetrics, metricsRowRaw, PFloat.fdiv, h]
      split_ifs <;> simp [PFloat.mulQ, PFloat.round2]
  · intro r h
    simp only [calculate_metrics, List.map_map, List.map_cons, List.map_nil,
      Function.comp, roundMetrics, metricsRowRaw, PFloat.fdiv, h]
    split_ifs <;> simp [PFloat.round2]
  · intro dfm
    have hsplit : (dfm.filter (fun m => !m.ROI.isNan)).length
        + (dfm.filter (fun m => m.ROI.isNan)).length = dfm.length := by
      have hperm := (dfm.filter_append_perm (fun m => !m.ROI.isNan)).length_eq
      simpa [Bool.not_not] using hperm
    simp only [rank_campaigns]
    rw [addRanks_length]
    simpa [List.length_insertionSort] using hsplit
  · intro dfm
    simp only [rank_campaigns]
    apply addRanks_pairwise (fun a b => a.ROI.isNan = true → b.ROI.isNan = true)
    refine List.pairwise_append.2 ⟨?_, ?_, ?_⟩
    · refine List.pairwise_of_forall_mem_list (fun a ha b _ => fun han => ?_)
      have ha' : a ∈ dfm.filter (fun m => !m.ROI.isNan) := (List.mem_insertionSort roiGE).1 ha
      have : (!a.ROI.isNan) = true := (List.mem_filter.1 ha').2
      simp [han] at this
    · refine List.pairwise_of_forall_mem_list (fun a _ b hb => fun _ => ?_)
      exact (List.mem_filter.1 hb).2
    · intro a _ b hb
      exact fun _ => (List.mem_filter.1 hb).2

/-- Witness for C3 as amended, at the zero-click, zero-conversion record Z
with positive spend: conversion_rate = 0/0 is NaN and CPA = 100/0 is +inf. -/
theorem C3_amended_witness :
    (calculate_metrics [recZ]).map (fun m => m.conversion_rate) = [PFloat.nan]
    ∧ (calculate_metrics [recZ]).map (fun m => m.CPA) = [PFloat.inf] := by
  constructor
  · have h1 := (C3_amended.1 recZ (by norm_num [recZ])).2
    rw [h1]
    norm_num [recZ]
  · have h2 := C3_amended.2.1 recZ (by norm_num [recZ])
    rw [h2]
    norm_num [recZ]

/-! ## C9 — two-decimal round-half-to-even with error at most 0.005 -/

/-- Rounding to the nearest integer (ties to even) moves a value by at most 1/2. -/
theorem rhe_sub_abs_le (x : ℚ) : |(rhe x : ℚ) - x| ≤ 1 / 2 := by
  have hfl : (⌊x⌋ : ℚ) ≤ x := Int.floor_le x
  have hfu : x < (⌊x⌋ : ℚ) + 1 := Int.lt_floor_add_one x
  simp only [rhe]
  by_cases h1 : x - (⌊x⌋ : ℚ) < 1 / 2
  · rw [if_pos h1, abs_sub_comm, abs_of_nonneg (by linarith)]
    linarith
  · rw [if_neg h1]
    by_cases h2 : 1 / 2 < x - (⌊x⌋ : ℚ)
    · rw [if_pos h2]
      push_cast
      rw [abs_of_nonneg (by linarith)]
      linarith
    · rw [if_neg h2]
      have heq : x - (⌊x⌋ : ℚ) = 1 / 2 := le_antisymm (not_lt.1 h2) (not_lt.1 h1)
      by_cases h3 : ⌊x⌋ % 2 = 0
      · rw [if_pos h3, abs_sub_comm, abs_of_nonneg (by linarith)]
        linarith
      · rw [if_neg h3]
        push_cast
        rw [abs_of_nonneg (by linarith)]
        linarith

/-- C9: every metric value the calculator stores is the exact formula value
rounded at two decimals by round-half-to-even (ties at the third decimal go
to the even second decimal: 0.125 rounds to 0.12, 0.375 rounds to 0.38;
at integer-plus-half the even integer is chosen), and the rounding error is
at most 1/200 = 0.005. -/
theorem C9_round_half_even :
    (∀ n : ℤ, rhe ((n : ℚ) + 1 / 2) = if n % 2 = 0 then n else n + 1)
    ∧ round2q (1 / 8) = 12 / 100
    ∧ round2q (3 / 8) = 38 / 100
    ∧ (∀ q : ℚ, |round2q q - q| ≤ 1 / 200)
    ∧ (∀ df : List CampaignRecord,
        calculate_metrics df = (calculate_metrics_fullprec df).map roundMetrics)
    ∧ (∀ q : ℚ, (PFloat.val q).round2 = .val (round2q q)) := by
  refine ⟨?_, ?_, ?_, ?_, fun _ => rfl, fun _ => rfl⟩
  · intro n
    have hf : ⌊(n : ℚ) + 1 / 2⌋ = n := by
      rw [add_comm, Int.floor_add_int]
      norm_num
    simp only [rhe, hf]
    have hfrac : (n : ℚ) + 1 / 2 - (n : ℚ) = 1 / 2 := by ring
    rw [hfrac]
    norm_num
  · norm_num [round2q, rhe]
  · norm_num [round2q, rhe]
  · intro q
    have h := rhe_sub_abs_le (q * 100)
    have heq : round2q q - q = ((rhe (q * 100) : ℚ) - q * 100) / 100 := by
      simp only [round2q]
      ring
    rw [heq, abs_div]
    rw [abs_of_pos (by norm_num : (0:ℚ) < 100)]
    linarith

/-! ## C5 — high-traffic/low-conversion selection -/

/-- C5: the high-traffic/low-conversion section selects exactly the records
whose CTR is strictly above the 75th percentile of all CTRs and whose
conversion rate is strictly below the median of all conversion rates, both
thresholds computed over the full ranked set by linear interpolation over the
sorted values; for [1,2,3,4] the median is 2.5 and the 75th percentile 3.25,
and the (purely functional) computation is deterministic for even and odd
counts alike (median of [1,2,3] is 2). -/
theorem C5_high_traffic_low_conversion :
    seriesMedian [.val 1, .val 2, .val 3, .val 4] = .val (5 / 2)
    ∧ seriesQuantile [.val 1, .val 2, .val 3, .val 4] (3 / 4) = .val (13 / 4)
    ∧ seriesMedian [.val 1, .val 2, .val 3] = .val 2
    ∧ ∀ (ranked : List RankedCampaign) (r : RankedCampaign),
        r ∈ (generate_recommendations ranked).high_ctr_low_conv
          ↔ r ∈ ranked
            ∧ PFloat.gtB r.m.CTR
                (seriesQuantile (ranked.map (fun x => x.m.CTR)) (3 / 4)) = true
            ∧ PFloat.ltB r.m.conversion_rate
                (seriesMedian (ranked.map (fun x => x.m.conversion_rate))) = true := by
  refine ⟨?_, ?_, ?_, ?_⟩
  · norm_num [seriesMedian, seriesQuantile, PFloat.isNan, pfLE, List.insertionSort,
      List.orderedInsert, PFloat.add, PFloat.sub, PFloat.mulQ, List.getD, List.get?,
      PFloat.key_le_val_val, show Int.toNat 1 = 1 from rfl]
  · norm_num [seriesMedian, seriesQuantile, PFloat.isNan, pfLE, List.insertionSort,
      List.orderedInsert, PFloat.add, PFloat.sub, PFloat.mulQ, List.getD, List.get?,
      PFloat.key_le_val_val, show Int.toNat 2 = 2 from rfl]
  · norm_num [seriesMedian, seriesQuantile, PFloat.isNan, pfLE, List.insertionSort,
      List.orderedInsert, PFloat.add, PFloat.sub, PFloat.mulQ, List.getD, List.get?,
      PFloat.key_le_val_val, show Int.toNat 1 = 1 from rfl]
  · intro ranked r
    simp only [generate_recommendations, List.mem_filter, Bool.and_eq_true]

/-! ## C6 — budget allocation -/

/-- C6: the budget section computes average CPA as total spend divided by
total conversions of the raw columns, partitions strictly — above average iff
CPA < average, below average iff CPA > average, so a record whose CPA equals
the average is in neither — and when total conversions is zero the average
CPA is an undefined special value (NaN or ±inf) while the section still
produces a result. -/
theorem C6_budget_allocation (ranked : List RankedCampaign) :
    (generate_recommendations ranked).total_spend = (ranked.map (fun r => r.m.record.spend)).sum
    ∧ (generate_recommendations ranked).total_conversions
        = (ranked.map (fun r => r.m.record.conversions)).sum
    ∧ (generate_recommendations ranked).avg_cpa
        = PFloat.fdiv (generate_recommendations ranked).total_spend
            (generate_recommendations ranked).total_conversions
    ∧ (generate_recommendations ranked).efficient_campaigns
        = ranked.filter (fun r => PFloat.ltB r.m.CPA (generate_recommendations ranked).avg_cpa)
    ∧ (generate_recommendations ranked).inefficient_campaigns
        = ranked.filter (fun r => PFloat.gtB r.m.CPA (generate_recommendations ranked).avg_cpa)
    ∧ (∀ r : RankedCampaign, r.m.CPA = (generate_recommendations ranked).avg_cpa →
        r ∉ (generate_recommendations ranked).efficient_campaigns
        ∧ r ∉ (generate_recommendations ranked).inefficient_campaigns)
    ∧ ((generate_recommendations ranked).total_conversions = 0 →
        (generate_recommendations ranked).avg_cpa = .nan
        ∨ (generate_recommendations ranked).avg_cpa = .inf
        ∨ (generate_recommendations ranked).avg_cpa = .ninf) := by
  simp only [generate_recommendations]
  refine ⟨trivial, trivial, trivial, trivial, trivial, ?_, ?_⟩
  · intro r hcpa
    constructor
    · intro hmem
      have hc := (List.mem_filter.1 hmem).2
      rw [hcpa] at hc
      simp [PFloat.ltB_irrefl] at hc
    · intro hmem
      have hc := (List.mem_filter.1 hmem).2
      rw [hcpa] at hc
      simp [PFloat.gtB, PFloat.ltB_irrefl] at hc
  · intro h0
    rw [h0]
    simp only [PFloat.fdiv, if_pos rfl]
    split_ifs <;> simp

/-- The metric row the calculator produces for record A. -/
def rAm : CampaignMetrics := roundMetrics (metricsRowRaw recA)

/-- The metric row the calculator produces for record N (CPA and ROI are NaN). -/
def rNm : CampaignMetrics := roundMetrics (metricsRowRaw recN)

/-! ## C7 — quick wins -/

/-- C7: the quick-wins section selects exactly the records with ROI strictly
above the median ROI and spend strictly below the median spend of the full
set; a record whose ROI or spend equals the respective median is excluded;
an empty selection is a valid result, as on the two-record input [A, A]
where both records sit exactly at the medians. -/
theorem C7_quick_wins :
    (∀ ranked : List RankedCampaign,
      (generate_recommendations ranked).quick_wins
        = ranked.filter (fun r =>
            PFloat.gtB r.m.ROI (seriesMedian (ranked.map (fun x => x.m.ROI)))
            && PFloat.ltB (PFloat.val r.m.record.spend)
                 (seriesMedian (ranked.map (fun x => PFloat.val x.m.record.spend))))
      ∧ (∀ r : RankedCampaign,
          r.m.ROI = seriesMedian (ranked.map (fun x => x.m.ROI)) →
          r ∉ (generate_recommendations ranked).quick_wins)
      ∧ (∀ r : RankedCampaign,
          PFloat.val r.m.record.spend
              = seriesMedian (ranked.map (fun x => PFloat.val x.m.record.spend)) →
          r ∉ (generate_recommendations ranked).quick_wins))
    ∧ (generate_recommendations (rank_campaigns (calculate_metrics [recA, recA]))).quick_wins
        = [] := by
  constructor
  · intro ranked
    refine ⟨by simp only [generate_recommendations], ?_, ?_⟩
    · intro r h hmem
      simp only [generate_recommendations] at hmem
      have hc := (List.mem_filter.1 hmem).2
      simp only [Bool.and_eq_true] at hc
      rw [h] at hc
      simp [PFloat.gtB, PFloat.ltB_irrefl] at hc
    · intro r h hmem
      simp only [generate_recommendations] at hmem
      have hc := (List.mem_filter.1 hmem).2
      simp only [Bool.and_eq_true] at hc
      rw [h] at hc
      simp [PFloat.ltB_irrefl] at hc
  · norm_num [generate_recommendations, rank_campaigns, calculate_metrics, metricsRowRaw,
      roundMetrics, PFloat.fdiv, PFloat.mulQ, PFloat.round2, round2q, rhe, avg_order_value,
      recA, PFloat.isNan, roiGE, addRanks, seriesMedian, seriesQuantile, pfLE,
      List.insertionSort, List.orderedInsert, PFloat.add, PFloat.sub, List.getD, List.get?,
      PFloat.key_le_val_val, PFloat.gtB, PFloat.ltB,
      show Int.toNat 0 = 0 from rfl]

/-! ## C10 — NaN values are silently excluded from filter sections -/

/-- C10: a record carrying NaN in a compared metric is silently excluded,
because every comparison against NaN is false: NaN CTR or conversion rate
keeps a record out of the high-traffic/low-conversion section, NaN CPA keeps
it out of both budget partitions (so the two partition counts can sum to
less than the record count, as on input [A, N]), and NaN ROI keeps it out of
the quick wins. -/
theorem C10_nan_comparisons :
    (∀ (ranked : List RankedCampaign) (r : RankedCampaign),
      ((r.m.CTR = .nan ∨ r.m.conversion_rate = .nan) →
          r ∉ (generate_recommendations ranked).high_ctr_low_conv)
      ∧ (r.m.CPA = .nan →
          r ∉ (generate_recommendations ranked).efficient_campaigns
          ∧ r ∉ (generate_recommendations ranked).inefficient_campaigns)
      ∧ (r.m.ROI = .nan → r ∉ (generate_recommendations ranked).quick_wins))
    ∧ (generate_recommendations
          (rank_campaigns (calculate_metrics [recA, recN]))).efficient_campaigns.length
        + (generate_recommendations
            (rank_campaigns (calculate_metrics [recA, recN]))).inefficient_campaigns.length
        < (rank_campaigns (calculate_metrics [recA, recN])).length := by
  constructor
  · intro ranked r
    refine ⟨?_, ?_, ?_⟩
    · intro h hmem
      simp only [generate_recommendations] at hmem
      have hc := (List.mem_filter.1 hmem).2
      simp only [Bool.and_eq_true] at hc
      rcases h with h | h <;> rw [h] at hc <;>
        simp [PFloat.gtB, PFloat.ltB_nan_right, PFloat.ltB_nan_left] at hc
    · intro h
      constructor
      · intro hmem
        simp only [generate_recommendations] at hmem
        have hc := (List.mem_filter.1 hmem).2
        rw [h] at hc
        simp [PFloat.ltB_nan_left] at hc
      · intro hmem
        simp only [generate_recommendations] at hmem
        have hc := (List.mem_filter.1 hmem).2
        rw [h] at hc
        simp [PFloat.gtB, PFloat.ltB_nan_right] at hc
    · intro h hmem
      simp only [generate_recommendations] at hmem
      have hc := (List.mem_filter.1 hmem).2
      simp only [Bool.and_eq_true] at hc
      rw [h] at hc
      simp [PFloat.gtB, PFloat.ltB_nan_right] at hc
  · norm_num [generate_recommendations, rank_campaigns, calculate_metrics, metricsRowRaw,
      roundMetrics, PFloat.fdiv, PFloat.mulQ, PFloat.round2, round2q, rhe, avg_order_value,
      recA, recN, PFloat.isNan, roiGE, addRanks, PFloat.gtB, PFloat.ltB,
      PFloat.key_le_val_val, List.insertionSort, List.orderedInsert]

/-- Witness for C6: the single record A has CPA exactly equal to the average
CPA and lands in neither partition; the zero-conversion record N makes the
average CPA undefined without crashing the section. -/
theorem C6_budget_allocation_witness :
    ((⟨1, rAm⟩ : RankedCampaign) ∉ (generate_recommendations [⟨1, rAm⟩]).efficient_campaigns
      ∧ (⟨1, rAm⟩ : RankedCampaign) ∉ (generate_recommendations [⟨1, rAm⟩]).inefficient_campaigns)
    ∧ ((generate_recommendations [(⟨1, rNm⟩ : RankedCampaign)]).avg_cpa = .nan
      ∨ (generate_recommendations [(⟨1, rNm⟩ : RankedCampaign)]).avg_cpa = .inf
      ∨ (generate_recommendations [(⟨1, rNm⟩ : RankedCampaign)]).avg_cpa = .ninf) := by
  constructor
  · refine (C6_budget_allocation [⟨1, rAm⟩]).2.2.2.2.2.1 ⟨1, rAm⟩ ?_
    norm_num [rAm, recA, metricsRowRaw, roundMetrics, generate_recommendations,
      PFloat.fdiv, PFloat.round2, round2q, rhe]
  · refine (C6_budget_allocation [⟨1, rNm⟩]).2.2.2.2.2.2 ?_
    norm_num [rNm, recN, metricsRowRaw, roundMetrics, generate_recommendations]

/-- Witness for C7: record A's ROI equals the median ROI of the singleton
input, so it is excluded from the quick wins. -/
theorem C7_quick_wins_witness :
    (⟨1, rAm⟩ : RankedCampaign) ∉ (generate_recommendations [⟨1, rAm⟩]).quick_wins := by
  refine (C7_quick_wins.1 [⟨1, rAm⟩]).2.1 ⟨1, rAm⟩ ?_
  norm_num [rAm, recA, metricsRowRaw, roundMetrics, PFloat.fdiv, PFloat.mulQ, PFloat.round2,
    round2q, rhe, avg_order_value, seriesMedian, seriesQuantile, pfLE, PFloat.isNan,
    List.insertionSort, List.orderedInsert, List.getD, List.get?,
    show Int.toNat 0 = 0 from rfl]

/-- Witness for C10: record N's NaN CPA and NaN ROI keep it out of the
efficient partition and the quick wins. -/
theorem C10_nan_comparisons_witness :
    (⟨1, rNm⟩ : RankedCampaign) ∉ (generate_recommendations [⟨1, rNm⟩]).efficient_campaigns
    ∧ (⟨1, rNm⟩ : RankedCampaign) ∉ (generate_recommendations [⟨1, rNm⟩]).quick_wins := by
  have h := C10_nan_comparisons.1 [⟨1, rNm⟩] ⟨1, rNm⟩
  constructor
  · exact (h.2.1 (by norm_num [rNm, recN, metricsRowRaw, roundMetrics, PFloat.fdiv,
      PFloat.round2])).1
  · exact h.2.2 (by norm_num [rNm, recN, metricsRowRaw, roundMetrics, PFloat.fdiv,
      PFloat.mulQ, PFloat.round2, avg_order_value])
